import Mathlib

/-!
Verification of the Stacklume child-process supervisor
(src/src-tauri/src/lib.rs) against its natural-language specification.

The Rust source is shallowly embedded: the pure decision logic of each
function is translated to a Lean definition, with the OS environment
(filesystem existence, TCP bind availability, HTTP responses, spawn
results) abstracted as explicit parameters.  Filesystem paths are
modelled as lists of components.
-/

namespace Stacklume

/-- Filesystem paths, modelled as their list of components.
`Path::join` becomes list append; `Path::parent` becomes `dropLast`. -/
abbrev FsPath := List String

/-- Rendering of a path to a string, standing in for `Path::display`
and `Path::to_str`. -/
def pathStr (p : FsPath) : String := String.intercalate "/" p

/-- Embedding of `resolve_resource` (lib.rs lines 97-107): try
`resource_dir/subpath`; if it exists return it, otherwise try
`resource_dir/resources/subpath`; if that exists return it, otherwise
fall back to the direct candidate (the error is reported later).
`ex` abstracts `Path::exists`. -/
def resolve_resource (ex : FsPath → Bool) (resource_dir : FsPath) (subpath : FsPath) :
    FsPath :=
  let direct := resource_dir ++ subpath
  if ex direct then direct
  else
    let withResources := resource_dir ++ ["resources"] ++ subpath
    if ex withResources then withResources
    else direct

/-- The ordered port candidate list of `find_free_port`
(lib.rs line 71): `[3001u16, 3002, ..., 3008]`. -/
def candidate_ports : List Nat := [3001, 3002, 3003, 3004, 3005, 3006, 3007, 3008]

/-- One iteration step of the `find_free_port` loop (lib.rs lines 71-75),
instrumented with the set of probe listeners currently held.
`free p` abstracts whether `TcpListener::bind("127.0.0.1:p")` succeeds.
When the bind succeeds the listener is a Rust temporary: it is live only
within the `if` condition and is dropped (erased from `held`) before the
`return port`.  When the bind fails no listener is created. -/
def probe_loop (free : Nat → Bool) (held : List Nat) : List Nat → Nat × List Nat
  | [] => (3001, held)
  | p :: rest =>
      if free p then
        let heldDuring := p :: held
        let heldAfter := heldDuring.erase p
        (p, heldAfter)
      else probe_loop free held rest

/-- Embedding of `find_free_port` (lib.rs lines 70-77): scan the
candidate list, return the first port whose bind probe succeeds, and
`3001` when all probes fail. -/
def find_free_port (free : Nat → Bool) : Nat :=
  (probe_loop free [] candidate_ports).1

/-- Result of one `ureq::get(url).call()` in `wait_for_server`.
With ureq defaults, `call()` returns `Ok(resp)` only for responses
with a 2xx/3xx status; a response with a 4xx or 5xx status is
delivered as `Err(Error::Status(code, ..))`, and transport-level
failures (for example connection refused) as
`Err(Error::Transport(..))`. -/
inductive HttpResult
  | ok (status : Nat)
  | errStatus (status : Nat)
  | errTransport
deriving DecidableEq, Repr

/-- The health classification applied to one attempt in
`wait_for_server` (lib.rs line 86): the match arm
`Ok(resp) if resp.status() < 500 => return true` fires on `Ok`
responses passing the status guard; both `Err` shapes — status errors
carrying the 4xx/5xx code and transport errors — fall to the
`_ => {}` arm and are retried.  Since ureq delivers only 2xx/3xx
through `Ok`, the `< 500` guard can never reject a deliverable `Ok`
response. -/
def respHealthy : HttpResult → Bool
  | .ok s => decide (s < 500)
  | .errStatus _ => false
  | .errTransport => false

/-- The `for _ in 0..80` loop of `wait_for_server` (lib.rs lines 84-90),
with the fuel counting remaining attempts and `i` the index of the next
attempt.  `resp i` abstracts the result of the i-th GET request. -/
def wait_loop (resp : Nat → HttpResult) : Nat → Nat → Bool
  | 0, _ => false
  | fuel + 1, i => if respHealthy (resp i) then true else wait_loop resp fuel (i + 1)

/-- Embedding of `wait_for_server` (lib.rs lines 82-92): poll the health
endpoint up to 80 times; return true on the first healthy response,
false when the attempt budget is exhausted. -/
def wait_for_server (resp : Nat → HttpResult) : Bool :=
  wait_loop resp 80 0

/-- Embedding of the tail extraction on health timeout
(lib.rs lines 459-468): `tail.lines().rev().take(20)` collected,
reversed back, and joined with newlines — the last twenty lines of the
captured server output, in original order. -/
def tail_last (lines : List String) : String :=
  String.intercalate "\n" ((lines.reverse.take 20).reverse)

/-- Embedding of the `ServerState` struct (lib.rs lines 5-15), the only
shared mutable state, with each `Mutex` field flattened to its value
(lock acquisition is modelled by the sequential order of the operations
on the state).  `killed` is ghost instrumentation recording, in order,
the pids on which `child.kill()` was invoked. -/
structure ServerState where
  port : Nat
  node_child : Option Nat
  node_job : Int
  killed : List Nat
deriving DecidableEq, Repr

/-- The initial managed state (lib.rs lines 162-168):
port 3000, no child, no job handle. -/
def initialState : ServerState :=
  { port := 3000, node_child := none, node_job := 0, killed := [] }

/-- Embedding of the `get_server_port` command (lib.rs lines 124-127). -/
def get_server_port (st : ServerState) : Nat := st.port

/-- Embedding of the `WindowEvent::Destroyed` handler
(lib.rs lines 515-534): take the child out of the mutex-guarded
`Option` (leaving `None`); if a child was present, kill it and wait,
discarding any errors; otherwise do nothing. -/
def on_window_destroyed (st : ServerState) : ServerState :=
  match st.node_child with
  | some c => { st with node_child := none, killed := st.killed ++ [c] }
  | none => st

/-- The `Command` built in `setup` (lib.rs lines 361-368): program,
working directory, arguments and child environment. -/
structure Cmd where
  program : FsPath
  cwd : FsPath
  args : List String
  envs : List (String × String)
deriving DecidableEq, Repr

/-- The readiness outcome delivered to the webview: exactly one of
these pages is navigated to per session after the loading page. -/
inductive Outcome
  | resourcesMissing (msg : String)
  | spawnError (msg : String)
  | ready (url : String)
  | failedTimeout (port : Nat) (tail : String)
deriving DecidableEq, Repr

/-- Observable events of the `setup` closure, in program order. -/
inductive Ev
  | showLoading
  | portWrite (p : Nat)
  | spawnAttempt (c : Cmd)
  | jobInstall (h : Int)
  | childStore (pid : Nat)
  | emit (o : Outcome)
deriving DecidableEq, Repr

/-- The environment `setup` runs against: resolved directories, the
filesystem existence oracle, the TCP bind oracle, the result of
`cmd.spawn()`, the Job Object handle returned by
`create_job_for_child`, the per-attempt health responses, and the
content of `server.log` at timeout (`none` when the read fails). -/
structure SetupEnv where
  resource_dir : FsPath
  app_data : FsPath
  pathExists : FsPath → Bool
  free : Nat → Bool
  spawnResult : Except String Nat
  jobHandle : Int
  responses : Nat → HttpResult
  server_log : Option (List String)

/-- The resolved `node_exe` path (lib.rs line 216). -/
def node_exe_path (env : SetupEnv) : FsPath :=
  resolve_resource env.pathExists env.resource_dir ["node", "node.exe"]

/-- The resolved `server_js` path (lib.rs line 217). -/
def server_js_path (env : SetupEnv) : FsPath :=
  resolve_resource env.pathExists env.resource_dir ["server", "server.js"]

/-- The existence check `node_ok && server_ok` (lib.rs lines 219-220). -/
def resources_ok (env : SetupEnv) : Bool :=
  env.pathExists (node_exe_path env) && env.pathExists (server_js_path env)

/-- The error text of the missing-resources page (lib.rs line 315):
`node.exe: {node_ok} | server.js: {server_ok}` — it names which
resource is missing. -/
def resourcesMissingMsg (nodeOk serverOk : Bool) : String :=
  "node.exe: " ++ toString nodeOk ++ " | server.js: " ++ toString serverOk

/-- The `Command` value built in `setup` (lib.rs lines 354-368):
the resolved node executable, working directory set to the parent
directory of the entry script (`server_dir`), the single relative
argument `server.js`, and the child environment: assigned port, local
hostname, desktop-mode flag, database path and runtime mode. -/
def spawn_cmd (env : SetupEnv) : Cmd :=
  { program := node_exe_path env
    cwd := (server_js_path env).dropLast
    args := ["server.js"]
    envs := [("PORT", toString (find_free_port env.free)),
             ("HOSTNAME", "127.0.0.1"),
             ("DESKTOP_MODE", "true"),
             ("DATABASE_PATH", pathStr (env.app_data ++ ["stacklume.db"])),
             ("NODE_ENV", "production")] }

/-- Embedding of the production branch of `setup` (lib.rs lines 181-513)
together with the readiness thread it spawns (lines 440-510), as a
function from the environment and the managed state to the final state
and the ordered list of observable events.  The thread result is placed
after the main-flow events, matching the ordering guarantee that the
readiness emission happens after spawn and after the kill-guarantee
installation.  Program order follows the source: loading page, resource
check with early return, port assignment, command construction, spawn
with early return on error, Job Object installation, child storage,
then exactly one readiness emission. -/
def setup (env : SetupEnv) (st0 : ServerState) : ServerState × List Ev :=
  let node_ok := env.pathExists (node_exe_path env)
  let server_ok := env.pathExists (server_js_path env)
  if !node_ok || !server_ok then
    (st0, [Ev.showLoading, Ev.emit (Outcome.resourcesMissing (resourcesMissingMsg node_ok server_ok))])
  else
    let port := find_free_port env.free
    let st1 := { st0 with port := port }
    let cmd := spawn_cmd env
    match env.spawnResult with
    | .error e =>
        (st1, [Ev.showLoading, Ev.portWrite port, Ev.spawnAttempt cmd,
               Ev.emit (Outcome.spawnError e)])
    | .ok pid =>
        let st2 := if env.jobHandle != 0 then { st1 with node_job := env.jobHandle } else st1
        let st3 := { st2 with node_child := some pid }
        let outcome :=
          if wait_for_server env.responses then
            Outcome.ready ("http://127.0.0.1:" ++ toString port)
          else
            Outcome.failedTimeout port
              (tail_last (match env.server_log with
                          | some lines => lines
                          | none => ["(servidor sin output)"]))
        (st3, [Ev.showLoading, Ev.portWrite port, Ev.spawnAttempt cmd,
               Ev.jobInstall env.jobHandle, Ev.childStore pid, Ev.emit outcome])

/-- Whether an event is a readiness emission to the webview. -/
def isEmit : Ev → Bool
  | .emit _ => true
  | _ => false

/-- Concrete environment in which every resource-existence check fails. -/
def envMissing : SetupEnv :=
  { resource_dir := ["app"], app_data := ["data"],
    pathExists := fun _ => false, free := fun _ => true,
    spawnResult := .ok 1, jobHandle := 1,
    responses := fun _ => .ok 200, server_log := none }

/-- Concrete environment in which resources exist, the first port probe
succeeds, the spawn succeeds and the first health poll returns 200. -/
def envReady : SetupEnv :=
  { resource_dir := ["app"], app_data := ["data"],
    pathExists := fun _ => true, free := fun _ => true,
    spawnResult := .ok 7, jobHandle := 1,
    responses := fun _ => .ok 200, server_log := none }

/-- Concrete environment in which the spawn succeeds but every health
poll is refused, so the attempt budget is exhausted. -/
def envTimeout : SetupEnv :=
  { resource_dir := ["app"], app_data := ["data"],
    pathExists := fun _ => true, free := fun _ => true,
    spawnResult := .ok 7, jobHandle := 1,
    responses := fun _ => .errTransport, server_log := some ["line1", "line2"] }

/-- Whether the supervised OS process has exited. -/
inductive ChildProc
  | running
  | exited
deriving DecidableEq, Repr

/-- OS semantics of `child.kill()` as invoked by the destroyed handler
(lib.rs line 530): when the kill call takes effect the process exits;
when it fails the process state is unchanged, and the `let _ =` in the
source discards the error. -/
def kill_syscall (killOk : Bool) (p : ChildProc) : ChildProc :=
  if killOk then .exited else p

/-- OS semantics of `child.wait()` (lib.rs line 531):
`std::process::Child::wait` has no timeout parameter — it returns once
the process has exited (`some ()`), and blocks indefinitely (`none`)
on a process that never exits.  `exitsOnOwn` abstracts whether the
child would eventually exit by itself. -/
def wait_syscall (exitsOnOwn : Bool) (p : ChildProc) : Option Unit :=
  match p with
  | .exited => some ()
  | .running => if exitsOnOwn then some () else none

/-- The kill-then-wait sequence of the destroyed handler
(lib.rs lines 530-531): `child.kill()` followed unconditionally by
`child.wait()`.  The result is `none` exactly when the wait blocks
forever. -/
def terminate_child (killOk exitsOnOwn : Bool) (p : ChildProc) : Option Unit :=
  wait_syscall exitsOnOwn (kill_syscall killOk p)

/-! ## Helper lemmas -/

/-- The probe loop never accumulates held listeners: each successful
bind is a temporary released before the return. -/
theorem probe_loop_held (free : Nat → Bool) :
    ∀ (l held : List Nat), (probe_loop free held l).2 = held := by
  intro l
  induction l with
  | nil => intro held; rfl
  | cons p rest ih =>
      intro held
      by_cases hp : free p
      · simp [probe_loop, hp]
      · simp [probe_loop, hp, ih]

/-- When every candidate probe fails, the loop falls through to the
default port and leaves the held set unchanged. -/
theorem probe_loop_all_occupied (free : Nat → Bool) :
    ∀ (l held : List Nat), (∀ p ∈ l, free p = false) →
      probe_loop free held l = (3001, held) := by
  intro l
  induction l with
  | nil => intro held _; rfl
  | cons p rest ih =>
      intro held h
      have hp : free p = false := h p (List.mem_cons_self p rest)
      simp only [probe_loop, hp, Bool.false_eq_true, if_false]
      exact ih held fun q hq => h q (List.mem_cons_of_mem p hq)

/-- When some candidate probe succeeds, the loop returns the first such
candidate in list order. -/
theorem probe_loop_first (free : Nat → Bool) :
    ∀ (l held : List Nat), (∃ p ∈ l, free p = true) →
      ∃ l₁ l₂, l = l₁ ++ (probe_loop free held l).1 :: l₂
        ∧ (∀ q ∈ l₁, free q = false)
        ∧ free (probe_loop free held l).1 = true := by
  intro l
  induction l with
  | nil =>
      intro held h
      rcases h with ⟨p, hp, _⟩
      exact absurd hp (List.not_mem_nil p)
  | cons p rest ih =>
      intro held h
      by_cases hp : free p = true
      · exact ⟨[], rest, by simp [probe_loop, hp], by simp, by simp [probe_loop, hp]⟩
      · have hpf : free p = false := Bool.eq_false_iff.mpr hp
        have hrest : ∃ q ∈ rest, free q = true := by
          rcases h with ⟨q, hq, hqt⟩
          rcases List.mem_cons.1 hq with rfl | hq2
          · exact absurd hqt hp
          · exact ⟨q, hq2, hqt⟩
        rcases ih held hrest with ⟨l₁, l₂, heq, hall, hfree⟩
        refine ⟨p :: l₁, l₂, ?_, ?_, ?_⟩
        · simpa [probe_loop, hpf] using heq
        · intro q hq
          rcases List.mem_cons.1 hq with rfl | hq2
          · exact hpf
          · exact hall q hq2
        · simpa [probe_loop, hpf] using hfree

/-- If the first `k` attempts are unhealthy and attempt `k` is healthy
within the fuel budget, the poll loop succeeds. -/
theorem wait_loop_success (resp : Nat → HttpResult) :
    ∀ (fuel k i : Nat), k < fuel →
      (∀ j, j < k → respHealthy (resp (i + j)) = false) →
      respHealthy (resp (i + k)) = true →
      wait_loop resp fuel i = true := by
  intro fuel
  induction fuel with
  | zero => intro k i hk; omega
  | succ n ih =>
      intro k i hk hprev hcur
      cases k with
      | zero =>
          simp only [Nat.add_zero] at hcur
          simp [wait_loop, hcur]
      | succ m =>
          have h0 : respHealthy (resp i) = false := by
            simpa using hprev 0 (Nat.succ_pos m)
          simp only [wait_loop, h0, Bool.false_eq_true, if_false]
          refine ih m (i + 1) (by omega) ?_ ?_
          · intro j hj
            have := hprev (j + 1) (by omega)
            simpa [Nat.add_assoc, Nat.add_comm 1 j] using this
          · simpa [Nat.add_assoc, Nat.add_comm 1 m] using hcur

/-- When every attempt is unhealthy the poll loop exhausts its fuel
and fails. -/
theorem wait_loop_exhaust (resp : Nat → HttpResult)
    (h : ∀ i, respHealthy (resp i) = false) :
    ∀ (fuel i : Nat), wait_loop resp fuel i = false := by
  intro fuel
  induction fuel with
  | zero => intro i; rfl
  | succ n ih => intro i; simp [wait_loop, h i, ih]

/-- The destroyed handler never touches the port field. -/
theorem on_window_destroyed_port (st : ServerState) :
    (on_window_destroyed st).port = st.port := by
  cases h : st.node_child <;> simp [on_window_destroyed, h]

/-- Iterating the destroyed handler never touches the port field. -/
theorem iterate_destroyed_port :
    ∀ (n : Nat) (st : ServerState), (on_window_destroyed^[n] st).port = st.port := by
  intro n
  induction n with
  | zero => intro st; rfl
  | succ m ih =>
      intro st
      rw [Function.iterate_succ_apply, ih, on_window_destroyed_port]

/-- The reversed-take-reversed tail extraction is the suffix of the
last twenty lines, in original order. -/
theorem tail_last_eq (lines : List String) :
    tail_last lines = String.intercalate "\n" (lines.drop (lines.length - 20)) := by
  unfold tail_last
  rw [← List.rtake_eq_reverse_take_reverse]
  rfl

/-- Splitting the combined resource-existence check. -/
theorem resources_ok_split (env : SetupEnv) (h : resources_ok env = true) :
    env.pathExists (node_exe_path env) = true
  ∧ env.pathExists (server_js_path env) = true := by
  unfold resources_ok at h
  simpa using h

/-- Under the resource check, the setup trace starts with the loading
page, then the single port write, then the spawn attempt with the
canonical command, and the remaining events contain no further port
write and no further spawn attempt. -/
theorem setup_events_ok (env : SetupEnv) (st0 : ServerState)
    (h : resources_ok env = true) :
    ∃ rest, (setup env st0).2
        = Ev.showLoading :: Ev.portWrite (find_free_port env.free)
          :: Ev.spawnAttempt (spawn_cmd env) :: rest
      ∧ (∀ c, Ev.spawnAttempt c ∉ rest)
      ∧ (∀ p, Ev.portWrite p ∉ rest) := by
  obtain ⟨hn, hsv⟩ := resources_ok_split env h
  unfold setup
  rcases hs : env.spawnResult with e | pid
  · exact ⟨[Ev.emit (Outcome.spawnError e)], by simp [hn, hsv], by simp, by simp⟩
  · refine ⟨[Ev.jobInstall env.jobHandle, Ev.childStore pid,
      Ev.emit (if wait_for_server env.responses then
          Outcome.ready ("http://127.0.0.1:" ++ toString (find_free_port env.free))
        else
          Outcome.failedTimeout (find_free_port env.free)
            (tail_last (match env.server_log with
                        | some lines => lines
                        | none => ["(servidor sin output)"])))],
      ?_, by simp, by simp⟩
    simp [hn, hsv]

/-- Under the resource check, the state after setup holds the
allocated port. -/
theorem setup_port_ok (env : SetupEnv) (st0 : ServerState)
    (h : resources_ok env = true) :
    (setup env st0).1.port = find_free_port env.free := by
  obtain ⟨hn, hsv⟩ := resources_ok_split env h
  unfold setup
  rcases hs : env.spawnResult with e | pid
  · simp [hn, hsv]
  · cases hj : env.jobHandle != 0 <;> simp [hn, hsv, hj]

/-! ## Claim theorems -/

/-- C1: the destroyed handler takes the child out of the mutex-guarded
Option, so a second invocation (the mutex serialises concurrent
firings) finds None and is a no-op: the child is killed exactly once,
and the second call changes nothing and surfaces no error. -/
theorem C1_terminate_idempotent (st : ServerState) :
    on_window_destroyed (on_window_destroyed st) = on_window_destroyed st
  ∧ (on_window_destroyed st).node_child = none
  ∧ (on_window_destroyed st).killed
      = st.killed ++ (match st.node_child with | some c => [c] | none => []) := by
  cases h : st.node_child <;> simp [on_window_destroyed, h]

/-- C2, evaluated at the failing input of the claim: a health endpoint
that answers every poll with HTTP 404 is delivered by ureq as
`Err(Error::Status(404, ..))`, which falls to the retry arm, so the
poller is never satisfied and returns false after its 80-attempt
budget — whereas the claim says a 404 is classified healthy and
returns true immediately.  A permanently refused connection is
likewise retried to exhaustion, and a 200 response (a deliverable
`Ok` under the status guard) succeeds on the first attempt. -/
theorem C2_status404_not_healthy :
    respHealthy (HttpResult.errStatus 404) = false
  ∧ wait_for_server (fun _ => HttpResult.errStatus 404) = false
  ∧ wait_for_server (fun _ => HttpResult.errTransport) = false
  ∧ wait_for_server (fun _ => HttpResult.ok 200) = true :=
  ⟨rfl,
   wait_loop_exhaust (fun _ => HttpResult.errStatus 404) (fun _ => rfl) 80 0,
   wait_loop_exhaust (fun _ => HttpResult.errTransport) (fun _ => rfl) 80 0,
   wait_loop_success (fun _ => HttpResult.ok 200) 80 0 0 (by omega) (by omega) rfl⟩

/-- C3: when every candidate port is occupied the allocator returns the
default 3001 without error; when some candidate is free it returns the
first free one in list order; and in every case the probe listeners
are all released, none is left held. -/
theorem C3_port_allocation (free : Nat → Bool) :
    ((∀ p ∈ candidate_ports, free p = false) → find_free_port free = 3001)
  ∧ ((∃ p ∈ candidate_ports, free p = true) →
      ∃ l₁ l₂, candidate_ports = l₁ ++ find_free_port free :: l₂
        ∧ (∀ q ∈ l₁, free q = false)
        ∧ free (find_free_port free) = true)
  ∧ (probe_loop free [] candidate_ports).2 = [] := by
  refine ⟨?_, ?_, probe_loop_held free candidate_ports []⟩
  · intro h
    unfold find_free_port
    rw [probe_loop_all_occupied free candidate_ports [] h]
  · intro h
    exact probe_loop_first free candidate_ports [] h

/-- Witness for C3: with every probe failing the allocator returns the
default and holds no listener. -/
theorem C3_port_allocation_witness :
    find_free_port (fun _ => false) = 3001
  ∧ (probe_loop (fun _ => false) [] candidate_ports).2 = [] :=
  ⟨(C3_port_allocation (fun _ => false)).1 (fun _ _ => rfl),
   (C3_port_allocation (fun _ => false)).2.2⟩

/-- C7 counterexample: the destroyed handler calls `child.wait()` with
no timeout after discarding the result of `child.kill()`; when the
kill call fails and the child never exits on its own, the wait blocks
indefinitely, so the claimed bounded wait does not hold. -/
theorem C7_unbounded_wait_counterexample :
    terminate_child false false ChildProc.running = none := rfl

/-- C7 (amended): terminate sends the kill signal and then waits for
process exit; the wait returns whenever the kill took effect or the
child exits on its own, and blocks indefinitely exactly when the kill
failed, the child never exits, and the process was still running. -/
theorem C7_terminate_wait (killOk exitsOnOwn : Bool) (p : ChildProc) :
    terminate_child killOk exitsOnOwn p = none
      ↔ killOk = false ∧ exitsOnOwn = false ∧ p = ChildProc.running := by
  cases killOk <;> cases exitsOnOwn <;> cases p <;>
    simp [terminate_child, kill_syscall, wait_syscall]

/-- C10: resource resolution returns the direct candidate when it
exists, otherwise the resources-prefixed candidate when that exists,
and otherwise falls back to the direct candidate; the result is always
one of these two paths. -/
theorem C10_resolve_resource (ex : FsPath → Bool) (dir sub : FsPath) :
    (resolve_resource ex dir sub = dir ++ sub
      ∨ resolve_resource ex dir sub = dir ++ ["resources"] ++ sub)
  ∧ (ex (dir ++ sub) = true → resolve_resource ex dir sub = dir ++ sub)
  ∧ (ex (dir ++ sub) = false → ex (dir ++ ["resources"] ++ sub) = true →
      resolve_resource ex dir sub = dir ++ ["resources"] ++ sub)
  ∧ (ex (dir ++ sub) = false → ex (dir ++ ["resources"] ++ sub) = false →
      resolve_resource ex dir sub = dir ++ sub) := by
  by_cases h1 : ex (dir ++ sub) <;>
    by_cases h2 : ex (dir ++ ["resources"] ++ sub) <;>
      simp [resolve_resource, h1, h2]

/-- Witness for C10: with no path existing the direct candidate is
returned for the later existence check to report. -/
theorem C10_resolve_resource_witness :
    resolve_resource (fun _ => false) ["r"] ["s"] = ["r", "s"] :=
  (C10_resolve_resource (fun _ => false) ["r"] ["s"]).2.2.2 rfl rfl

/-- C4: when the executable or the entry script is missing, setup
leaves the state untouched (so in particular no port is allocated and
no child is stored), emits exactly the failure page naming which of
node.exe and server.js is missing, and never reaches a port write or
a spawn attempt. -/
theorem C4_missing_resource (env : SetupEnv) (st0 : ServerState)
    (h : resources_ok env = false) :
    (setup env st0).1 = st0
  ∧ (setup env st0).2 = [Ev.showLoading,
      Ev.emit (Outcome.resourcesMissing (resourcesMissingMsg
        (env.pathExists (node_exe_path env)) (env.pathExists (server_js_path env))))]
  ∧ (∀ c, Ev.spawnAttempt c ∉ (setup env st0).2)
  ∧ (∀ p, Ev.portWrite p ∉ (setup env st0).2) := by
  cases hn : env.pathExists (node_exe_path env) <;>
    cases hsv : env.pathExists (server_js_path env) <;>
      simp_all [setup, resources_ok]

/-- Witness for C4 at the concrete environment where both resources
are missing. -/
theorem C4_missing_resource_witness :
    (setup envMissing initialState).1 = initialState
  ∧ (setup envMissing initialState).2 = [Ev.showLoading,
      Ev.emit (Outcome.resourcesMissing (resourcesMissingMsg false false))] :=
  ⟨(C4_missing_resource envMissing initialState rfl).1,
   (C4_missing_resource envMissing initialState rfl).2.1⟩

/-- C5: over every environment — resources missing, spawn failure,
health success or health timeout — the setup trace contains exactly
one readiness emission: never zero, never more than one. -/
theorem C5_single_emission (env : SetupEnv) (st0 : ServerState) :
    ((setup env st0).2.filter isEmit).length = 1 := by
  unfold setup
  cases hn : env.pathExists (node_exe_path env) <;>
    cases hsv : env.pathExists (server_js_path env) <;>
      rcases hs : env.spawnResult with e | pid <;>
        simp [isEmit]

/-- C6: when the spawn succeeded but the poller exhausted its budget,
the emitted outcome is the failure page carrying exactly the last
twenty lines of the captured server output in original order, the
child remains stored in the session state, and no kill is performed
by the timeout path. -/
theorem C6_timeout_tail (env : SetupEnv) (st0 : ServerState) (pid : Nat)
    (lines : List String)
    (hres : resources_ok env = true)
    (hspawn : env.spawnResult = .ok pid)
    (hpoll : wait_for_server env.responses = false)
    (hlog : env.server_log = some lines) :
    (∃ pre, (setup env st0).2 = pre
        ++ [Ev.emit (Outcome.failedTimeout (find_free_port env.free)
             (String.intercalate "\n" (lines.drop (lines.length - 20))))])
  ∧ (setup env st0).1.node_child = some pid
  ∧ (setup env st0).1.killed = st0.killed := by
  obtain ⟨hn, hsv⟩ := resources_ok_split env hres
  unfold setup
  rw [hspawn]
  cases hj : env.jobHandle != 0 <;>
    simp [hn, hsv, hj, hpoll, hlog, tail_last_eq] <;>
    exact ⟨[Ev.showLoading, Ev.portWrite (find_free_port env.free),
            Ev.spawnAttempt (spawn_cmd env), Ev.jobInstall env.jobHandle,
            Ev.childStore pid], rfl⟩

/-- Witness for C6 at the concrete timeout environment with a
two-line server log. -/
theorem C6_timeout_tail_witness :
    (∃ pre, (setup envTimeout initialState).2 = pre
        ++ [Ev.emit (Outcome.failedTimeout (find_free_port envTimeout.free)
             (String.intercalate "\n"
               ((["line1", "line2"] : List String).drop
                 ((["line1", "line2"] : List String).length - 20))))])
  ∧ (setup envTimeout initialState).1.node_child = some 7
  ∧ (setup envTimeout initialState).1.killed = [] :=
  C6_timeout_tail envTimeout initialState 7 ["line1", "line2"] rfl rfl (by decide) rfl

/-- C8: whenever setup reaches the spawn, the command it launches has
working directory the parent directory of the entry script, passes the
script as the single literal relative argument, runs the resolved
executable, and sets the assigned port, the local hostname, the
desktop-mode flag, the database path and the runtime mode in the
child environment. -/
theorem C8_spawn_config (env : SetupEnv) (st0 : ServerState)
    (h : resources_ok env = true) :
    (∃ c, Ev.spawnAttempt c ∈ (setup env st0).2)
  ∧ (∀ c, Ev.spawnAttempt c ∈ (setup env st0).2 →
        c.cwd = (server_js_path env).dropLast
      ∧ c.args = ["server.js"]
      ∧ c.program = node_exe_path env
      ∧ c.envs = [("PORT", toString (find_free_port env.free)),
                  ("HOSTNAME", "127.0.0.1"),
                  ("DESKTOP_MODE", "true"),
                  ("DATABASE_PATH", pathStr (env.app_data ++ ["stacklume.db"])),
                  ("NODE_ENV", "production")]) := by
  obtain ⟨rest, heq, hnospawn, -⟩ := setup_events_ok env st0 h
  rw [heq]
  constructor
  · exact ⟨spawn_cmd env, by simp⟩
  · intro c hc
    rcases List.mem_cons.1 hc with h1 | hc
    · cases h1
    rcases List.mem_cons.1 hc with h1 | hc
    · cases h1
    rcases List.mem_cons.1 hc with h1 | hc
    · cases Ev.spawnAttempt.inj h1
      exact ⟨rfl, rfl, rfl, rfl⟩
    · exact absurd hc (hnospawn c)

/-- Witness for C8 at the concrete all-successful environment. -/
theorem C8_spawn_config_witness :
    ∃ c, Ev.spawnAttempt c ∈ (setup envReady initialState).2 :=
  (C8_spawn_config envReady initialState rfl).1

/-- C9: the allocated port is written into the session state exactly
once, after allocation and before the spawn attempt (the remaining
trace contains no further port write), the stored port is the
allocated one, and any number of subsequent terminations leaves
`get_server_port` returning the same value. -/
theorem C9_port_assigned_once (env : SetupEnv) (st0 : ServerState)
    (h : resources_ok env = true) :
    (∃ c rest, (setup env st0).2
        = Ev.showLoading :: Ev.portWrite (find_free_port env.free)
          :: Ev.spawnAttempt c :: rest
      ∧ (∀ p, Ev.portWrite p ∉ rest))
  ∧ get_server_port (setup env st0).1 = find_free_port env.free
  ∧ (∀ n, get_server_port (on_window_destroyed^[n] (setup env st0).1)
        = find_free_port env.free) := by
  obtain ⟨rest, heq, -, hnoport⟩ := setup_events_ok env st0 h
  refine ⟨⟨spawn_cmd env, rest, heq, hnoport⟩, setup_port_ok env st0 h, ?_⟩
  intro n
  unfold get_server_port
  rw [iterate_destroyed_port n, setup_port_ok env st0 h]

/-- Witness for C9 at the concrete all-successful environment:
the stored port is the first candidate. -/
theorem C9_port_assigned_once_witness :
    get_server_port (setup envReady initialState).1 = 3001
  ∧ get_server_port (on_window_destroyed^[2] (setup envReady initialState).1) = 3001 :=
  ⟨(C9_port_assigned_once envReady initialState rfl).2.1,
   (C9_port_assigned_once envReady initialState rfl).2.2 2⟩

end Stacklume
